import Mathlib

/-!
Verification of `include/boost/beast/core/buffer_traits.hpp`.

The header is a compile-time type-algebra: capability predicates over a
variadic list of types, a conditional view-type resolver, and an
iterator-type resolver with an MSVC fallback lookup table.  We embed the
C++ types involved as a universe `Ty` of type descriptors, template
metafunctions as Lean functions on `Ty` (variadic packs become `List Ty`),
and compile-time resolution failure as `Option`.
-/

namespace BoostBeast

/-- Descriptors for the C++ types that can be handed to the metafunctions:
the two primitive buffer views `net::const_buffer` / `net::mutable_buffer`,
reference and top-level-const qualified types (stripped by `std::decay`),
container types with a `begin`/`end` pair over an element type
(`vec e` stands for a `std::vector<e>`-like collection), pointer types
`e const*`, container const-iterator types, and opaque types with no
`begin` operation (`other n`). -/
inductive Ty : Type where
  | const_buffer : Ty
  | mutable_buffer : Ty
  | ref : Ty → Ty
  | constQual : Ty → Ty
  | vec : Ty → Ty
  | ptrConst : Ty → Ty
  | vecConstIterator : Ty → Ty
  | other : Nat → Ty
  deriving DecidableEq, Repr

/-- `std::decay<T>::type`: strip reference and top-level cv qualification. -/
def decay : Ty → Ty
  | .ref t => decay t
  | .constQual t => decay t
  | .const_buffer => .const_buffer
  | .mutable_buffer => .mutable_buffer
  | .vec e => .vec e
  | .ptrConst e => .ptrConst e
  | .vecConstIterator e => .vecConstIterator e
  | .other n => .other n

/-- Modelled from the spec: a type is (convertible to) the Read-Only-View
exactly when it is one of the two primitive buffer views, since a
Read-Write-View is usable wherever a Read-Only-View is required. -/
def isConstView : Ty → Bool
  | .const_buffer => true
  | .mutable_buffer => true
  | _ => false

/-- Modelled from the spec: only the Read-Write-View itself provides
read-write access; the reverse conversion is forbidden. -/
def isMutableView : Ty → Bool
  | .mutable_buffer => true
  | _ => false

/-- Modelled from the spec: the external per-type Constant-Buffer-Sequence
contract (`net::is_const_buffer_sequence`, one type): satisfied by both
primitive views (a single view acts as a one-element sequence) and by a
collection whose elements are usable as Read-Only-Views. -/
def net_is_const_buffer_sequence : Ty → Bool
  | .const_buffer => true
  | .mutable_buffer => true
  | .vec e => isConstView e
  | _ => false

/-- Modelled from the spec: the external per-type Mutable-Buffer-Sequence
contract (`net::is_mutable_buffer_sequence`, one type): satisfied by the
Read-Write-View and by a collection of Read-Write-View elements. -/
def net_is_mutable_buffer_sequence : Ty → Bool
  | .mutable_buffer => true
  | .vec e => isMutableView e
  | _ => false

/-- Return-type table of `net::buffer_sequence_begin` applied to an object
of the given decayed type: the primitive-view overloads return the address
of the view (`view const*`), a collection returns its const iterator, and
any other type has no viable overload (compile-time failure, `none`). -/
def begin_on_decayed : Ty → Option Ty
  | .const_buffer => some (.ptrConst .const_buffer)
  | .mutable_buffer => some (.ptrConst .mutable_buffer)
  | .vec e => some (.vecConstIterator e)
  | _ => none

/-- Type of `net::buffer_sequence_begin(std::declval<T const&>())`.
Overload resolution on a constant-qualified instance of `T` is driven by
the underlying object type, i.e. by `decay T`. -/
def buffer_sequence_begin_type (t : Ty) : Option Ty :=
  begin_on_decayed (decay t)

/-- `beast::is_const_buffer_sequence<TN...>`:
`mp11::mp_all<net::is_const_buffer_sequence<std::decay<TN>::type>...>`. -/
def is_const_buffer_sequence (ts : List Ty) : Bool :=
  ts.all fun t => net_is_const_buffer_sequence (decay t)

/-- `beast::is_mutable_buffer_sequence<TN...>`:
`mp11::mp_all<net::is_mutable_buffer_sequence<std::decay<TN>::type>...>`. -/
def is_mutable_buffer_sequence (ts : List Ty) : Bool :=
  ts.all fun t => net_is_mutable_buffer_sequence (decay t)

/-- `beast::buffers_type<TN...>`: `std::conditional` on the mutable
predicate, selecting `net::mutable_buffer` or `net::const_buffer`. -/
def buffers_type (ts : List Ty) : Ty :=
  if is_mutable_buffer_sequence ts then .mutable_buffer else .const_buffer

/-- `detail::buffers_iterator_type_helper<T>` (the MSVC < 1910 workaround):
explicit specializations map the two primitive views to `view const*`;
the primary template deduces the type from `net::buffer_sequence_begin`
on a constant-qualified instance. -/
def buffers_iterator_type_helper : Ty → Option Ty
  | .const_buffer => some (.ptrConst .const_buffer)
  | .mutable_buffer => some (.ptrConst .mutable_buffer)
  | t => buffer_sequence_begin_type t

/-- `beast::buffers_iterator_type<T>` on the primary (non-workaround) path:
`decltype(net::buffer_sequence_begin(std::declval<T const&>()))`. -/
def buffers_iterator_type (t : Ty) : Option Ty :=
  buffer_sequence_begin_type t

/-- `beast::buffers_iterator_type<T>` on the MSVC < 1910 fallback path:
the helper applied to `std::decay<T>::type`. -/
def buffers_iterator_type_fallback (t : Ty) : Option Ty :=
  buffers_iterator_type_helper (decay t)

/-- A type exposes a `begin` operation exactly when it is a collection. -/
def hasBegin : Ty → Bool
  | .vec _ => true
  | _ => false

/-- Per-type monotonicity of the external contracts: a Mutable-Buffer-Sequence
is also a Constant-Buffer-Sequence. -/
theorem net_mono (t : Ty) (h : net_is_mutable_buffer_sequence t = true) :
    net_is_const_buffer_sequence t = true := by
  cases t
  case vec e =>
    cases e <;>
      simp_all [net_is_mutable_buffer_sequence, net_is_const_buffer_sequence,
        isMutableView, isConstView]
  all_goals
    simp_all [net_is_mutable_buffer_sequence, net_is_const_buffer_sequence,
      isMutableView, isConstView]

/-- `decay` never returns a reference or const-qualified descriptor. -/
theorem decay_no_qual (t : Ty) :
    (∀ u, decay t ≠ Ty.ref u) ∧ (∀ u, decay t ≠ Ty.constQual u) := by
  induction t with
  | ref u ih => simpa [decay] using ih
  | constQual u ih => simpa [decay] using ih
  | const_buffer => simp [decay]
  | mutable_buffer => simp [decay]
  | vec e => simp [decay]
  | ptrConst e => simp [decay]
  | vecConstIterator e => simp [decay]
  | other n => simp [decay]

/-- The primary deduction and the fallback helper-on-decayed-type compute
the same iterator type for every descriptor. -/
theorem begin_eq_helper (t : Ty) :
    buffer_sequence_begin_type t = buffers_iterator_type_helper (decay t) := by
  induction t with
  | ref u ih => simpa [buffer_sequence_begin_type, decay] using ih
  | constQual u ih => simpa [buffer_sequence_begin_type, decay] using ih
  | const_buffer => rfl
  | mutable_buffer => rfl
  | vec e => rfl
  | ptrConst e => rfl
  | vecConstIterator e => rfl
  | other n => rfl

/-- C1: for every list of types, if `is_mutable_buffer_sequence` holds then
`is_const_buffer_sequence` also holds — classification is monotonic over
capability widening, no list is classified Mutable-but-not-Constant. -/
theorem mutable_implies_const_sequence (ts : List Ty)
    (h : is_mutable_buffer_sequence ts = true) :
    is_const_buffer_sequence ts = true := by
  simp only [is_mutable_buffer_sequence, is_const_buffer_sequence,
    List.all_eq_true] at h ⊢
  intro t ht
  exact net_mono _ (h t ht)

/-- C1 witness: a concrete all-mutable list is classified both Mutable
and Constant. -/
theorem mutable_implies_const_sequence_witness :
    is_mutable_buffer_sequence [Ty.mutable_buffer, Ty.vec Ty.mutable_buffer] = true ∧
    is_const_buffer_sequence [Ty.mutable_buffer, Ty.vec Ty.mutable_buffer] = true :=
  ⟨by decide, mutable_implies_const_sequence _ (by decide)⟩

/-- C2: for every list of types, `buffers_type` resolves to
`net::mutable_buffer` exactly when `is_mutable_buffer_sequence` holds and
to `net::const_buffer` exactly when it does not, so the result is always
exactly one of the two view types. -/
theorem buffers_type_resolution (ts : List Ty) :
    (buffers_type ts = Ty.mutable_buffer ↔ is_mutable_buffer_sequence ts = true) ∧
    (buffers_type ts = Ty.const_buffer ↔ is_mutable_buffer_sequence ts = false) := by
  unfold buffers_type
  rcases h : is_mutable_buffer_sequence ts <;> simp

/-- C3: on the empty list of types both capability predicates are
vacuously true. -/
theorem empty_list_both_true :
    is_const_buffer_sequence [] = true ∧ is_mutable_buffer_sequence [] = true := by
  decide

/-- C4: `buffers_type` of the empty list resolves to the Read-Write-View
type `net::mutable_buffer`. -/
theorem buffers_type_empty : buffers_type [] = Ty.mutable_buffer := by
  decide

/-- C5: each beast predicate is an all-of conjunction — true iff every
listed type, after `std::decay`, individually satisfies the corresponding
per-type contract. -/
theorem sequence_predicates_all (ts : List Ty) :
    (is_const_buffer_sequence ts = true ↔
      ∀ t ∈ ts, net_is_const_buffer_sequence (decay t) = true) ∧
    (is_mutable_buffer_sequence ts = true ↔
      ∀ t ∈ ts, net_is_mutable_buffer_sequence (decay t) = true) := by
  simp [is_const_buffer_sequence, is_mutable_buffer_sequence, List.all_eq_true]

/-- C6: the fallback helper maps `net::const_buffer` to
`net::const_buffer const*` and `net::mutable_buffer` to
`net::mutable_buffer const*` by its explicit lookup table, and for any
other type uses the primary begin-deduction path. -/
theorem helper_lookup_table :
    buffers_iterator_type_helper Ty.const_buffer =
      some (Ty.ptrConst Ty.const_buffer) ∧
    buffers_iterator_type_helper Ty.mutable_buffer =
      some (Ty.ptrConst Ty.mutable_buffer) ∧
    ∀ t : Ty, t ≠ Ty.const_buffer → t ≠ Ty.mutable_buffer →
      buffers_iterator_type_helper t = buffer_sequence_begin_type t := by
  refine ⟨rfl, rfl, ?_⟩
  intro t h1 h2
  cases t
  case const_buffer => exact (h1 rfl).elim
  case mutable_buffer => exact (h2 rfl).elim
  all_goals rfl

/-- C6 witness: the helper on a collection type follows the primary
deduction path. -/
theorem helper_lookup_table_witness :
    buffers_iterator_type_helper (Ty.vec Ty.const_buffer) =
      buffer_sequence_begin_type (Ty.vec Ty.const_buffer) :=
  helper_lookup_table.2.2 (Ty.vec Ty.const_buffer) (by decide) (by decide)

/-- C7: the primary path and the fallback path of `buffers_iterator_type`
agree on every descriptor (in particular whenever both resolve), and on
`net::const_buffer` both yield `net::const_buffer const*`. -/
theorem iterator_paths_agree :
    (∀ t : Ty, buffers_iterator_type t = buffers_iterator_type_fallback t) ∧
    buffers_iterator_type Ty.const_buffer =
      some (Ty.ptrConst Ty.const_buffer) ∧
    buffers_iterator_type_fallback Ty.const_buffer =
      some (Ty.ptrConst Ty.const_buffer) :=
  ⟨fun t => begin_eq_helper t, rfl, rfl⟩

/-- C8: on a genuine buffer-sequence type (a collection of buffer views)
`buffers_iterator_type` resolves to the collection's own const iterator,
which is neither of the primitive lookup-table results. -/
theorem sequence_iterator_natural (e : Ty)
    (_h : net_is_const_buffer_sequence (Ty.vec e) = true) :
    buffers_iterator_type (Ty.vec e) = some (Ty.vecConstIterator e) ∧
    Ty.vecConstIterator e ≠ Ty.ptrConst Ty.const_buffer ∧
    Ty.vecConstIterator e ≠ Ty.ptrConst Ty.mutable_buffer := by
  refine ⟨rfl, by simp, by simp⟩

/-- C8 witness: a collection of Read-Write-Views gets its natural
iterator type. -/
theorem sequence_iterator_natural_witness :
    net_is_const_buffer_sequence (Ty.vec Ty.mutable_buffer) = true ∧
    buffers_iterator_type (Ty.vec Ty.mutable_buffer) =
      some (Ty.vecConstIterator Ty.mutable_buffer) :=
  ⟨by decide, (sequence_iterator_natural Ty.mutable_buffer (by decide)).1⟩

/-- C9 counterexample: a collection of non-view elements satisfies neither
capability contract (both predicates are false) and is not one of the two
primitive views, yet `buffers_iterator_type` still resolves — `begin` is
deduced regardless of the element type, so resolution does not fail for
every type outside the buffer-sequence contract. -/
theorem nonconforming_type_resolves :
    is_const_buffer_sequence [Ty.vec (Ty.other 0)] = false ∧
    is_mutable_buffer_sequence [Ty.vec (Ty.other 0)] = false ∧
    Ty.vec (Ty.other 0) ≠ Ty.const_buffer ∧
    Ty.vec (Ty.other 0) ≠ Ty.mutable_buffer ∧
    buffers_iterator_type (Ty.vec (Ty.other 0)) =
      some (Ty.vecConstIterator (Ty.other 0)) := by
  decide

/-- C9 amended: for every type that (after decay) exposes no `begin`
operation and is not one of the two primitive views,
`buffers_iterator_type` has no result, while the capability predicates
never fail and simply yield false. -/
theorem no_begin_no_iterator (t : Ty)
    (h1 : hasBegin (decay t) = false)
    (h2 : decay t ≠ Ty.const_buffer)
    (h3 : decay t ≠ Ty.mutable_buffer) :
    buffers_iterator_type t = none ∧
    is_const_buffer_sequence [t] = false ∧
    is_mutable_buffer_sequence [t] = false := by
  have hconst : is_const_buffer_sequence [t] =
      net_is_const_buffer_sequence (decay t) := by
    simp [is_const_buffer_sequence]
  have hmut : is_mutable_buffer_sequence [t] =
      net_is_mutable_buffer_sequence (decay t) := by
    simp [is_mutable_buffer_sequence]
  have hit : buffers_iterator_type t = begin_on_decayed (decay t) := rfl
  rw [hit, hconst, hmut]
  have hq := decay_no_qual t
  cases h : decay t
  case const_buffer => exact (h2 h).elim
  case mutable_buffer => exact (h3 h).elim
  case ref u => exact (hq.1 u h).elim
  case constQual u => exact (hq.2 u h).elim
  case vec e =>
    rw [h] at h1
    simp [hasBegin] at h1
  case ptrConst e => exact ⟨rfl, rfl, rfl⟩
  case vecConstIterator e => exact ⟨rfl, rfl, rfl⟩
  case other n => exact ⟨rfl, rfl, rfl⟩

/-- C9 amended witness: an opaque type without `begin` has no iterator
type and both predicates are false on it. -/
theorem no_begin_no_iterator_witness :
    buffers_iterator_type (Ty.other 7) = none ∧
    is_const_buffer_sequence [Ty.other 7] = false ∧
    is_mutable_buffer_sequence [Ty.other 7] = false :=
  no_begin_no_iterator (Ty.other 7) (by decide) (by decide) (by decide)

/-- C10: `buffers_type` is total — it always resolves to one of the two
view types, and whenever the mutable predicate is false (including lists
holding non-conforming types) it resolves to `net::const_buffer`. -/
theorem buffers_type_total (ts : List Ty) :
    (buffers_type ts = Ty.const_buffer ∨ buffers_type ts = Ty.mutable_buffer) ∧
    (is_mutable_buffer_sequence ts = false → buffers_type ts = Ty.const_buffer) := by
  unfold buffers_type
  rcases h : is_mutable_buffer_sequence ts <;> simp

/-- C10 witness: on a list holding a non-conforming type, `buffers_type`
still resolves, to `net::const_buffer`. -/
theorem buffers_type_total_witness :
    is_mutable_buffer_sequence [Ty.other 0] = false ∧
    buffers_type [Ty.other 0] = Ty.const_buffer :=
  ⟨by decide, (buffers_type_total [Ty.other 0]).2 (by decide)⟩

end BoostBeast
